import Mathlib

/-!
Verification of the Prokode Labs IAM portal authentication logic.

The definitions below are a shallow embedding of the browser-side
authentication manager (auth.js), the application feature bootstrap
(app.js) and the enhanced variant of the manager, translated
function-by-function from the JavaScript source.  State held in the
`ProkodeAuthManager` instance and at module scope is made explicit;
calls to the external Okta widget are modelled by outcome parameters.
-/

namespace IAM

/-- Authentication state of the manager: the string field
`this.authState` of `ProkodeAuthManager` takes exactly the values
`loading`, `unauthenticated`, `authenticated`. -/
inductive AuthState where
  | loading
  | unauthenticated
  | authenticated
deriving DecidableEq

/-- The claims bag returned by the identity provider (`tokens.idToken.claims`
or the `getUserInfo` result).  Only fields the code reads are modelled;
`groups` is optional because the claim may be absent. -/
structure Claims where
  name : Option String
  preferredUsername : Option String
  email : Option String
  groups : Option (List String)
deriving DecidableEq

/-- Embedding of `ProkodeAuthManager.hasRole` (auth.js lines 808-813):
`if (!this.currentUser || !this.currentUser.groups) return false;
 return this.currentUser.groups.includes(roleName);`
Note a JS empty array is truthy, so only a missing groups claim (not an
empty list) short-circuits to false. -/
def hasRole (currentUser : Option Claims) (roleName : String) : Bool :=
  match currentUser with
  | none => false
  | some u =>
    match u.groups with
    | none => false
    | some gs => gs.contains roleName

/-- The `roleMapping` object literal in `getUserRole` (auth.js lines 480-489). -/
def roleMapping : List (String × String) :=
  [("IAM-Admins", "IAM Administrator"),
   ("IAM-Team", "IAM Team Member"),
   ("Security-Team", "Security Specialist"),
   ("Engineering-Team", "Engineering Team"),
   ("Governance-Team", "Governance Team"),
   ("Support-Team", "Support Team"),
   ("Management", "Management"),
   ("Consultant", "Consultant")]

/-- The `priorityOrder` array in `getUserRole` (auth.js lines 492-495). -/
def priorityOrder : List String :=
  ["IAM-Admins", "Security-Team", "IAM-Team", "Engineering-Team",
   "Governance-Team", "Management", "Support-Team", "Consultant"]

/-- Embedding of `ProkodeAuthManager.getUserRole` (auth.js lines 479-504):
iterate over `priorityOrder`, on the first role contained in `groups`
return `roleMapping[role]` (a JS property access, which would be
`undefined` for a missing key, hence the `Option` result), otherwise
return the default label. -/
def getUserRole (groups : List String) : Option String :=
  match priorityOrder.find? (fun role => groups.contains role) with
  | some role => roleMapping.lookup role
  | none => some "Team Member"

/-- Display label for each known group, written from the words of the
specification for claim C10 ("the display label of the first group
present in the fixed priority order, default Team Member"), to be
compared with `getUserRole` as embedded from the source. -/
def claimedLabel : String → String
  | "IAM-Admins" => "IAM Administrator"
  | "Security-Team" => "Security Specialist"
  | "IAM-Team" => "IAM Team Member"
  | "Engineering-Team" => "Engineering Team"
  | "Governance-Team" => "Governance Team"
  | "Management" => "Management"
  | "Support-Team" => "Support Team"
  | "Consultant" => "Consultant"
  | _ => "Team Member"

/-- Instance state of `ProkodeAuthManager` (auth.js constructor, lines
100-104): the current identity, the authentication state, the retry
counter, plus the token store written through
`authClient.tokenManager` (set on login success, cleared on logout). -/
structure AuthMgr where
  currentUser : Option Claims
  authState : AuthState
  retryCount : Nat
  tokensStored : Bool
deriving DecidableEq

/-- Embedding of `ProkodeAuthManager.isAuthenticated` (auth.js lines 801-803):
`return this.authState === 'authenticated' && this.currentUser !== null;` -/
def isAuthenticated (m : AuthMgr) : Bool :=
  decide (m.authState = AuthState.authenticated) && decide (m.currentUser ≠ none)

/-- State effect of `ProkodeAuthManager.showLoginForm` (auth.js lines 303-326):
sets `this.authState = 'unauthenticated'`; it does NOT touch
`currentUser`, `retryCount` or the token store (the rest of the method
is DOM display toggling and the widget render). -/
def showLoginForm (m : AuthMgr) : AuthMgr :=
  { m with authState := AuthState.unauthenticated }

/-- State effect of `ProkodeAuthManager.showProtectedContent` (auth.js lines
405-445): sets `this.authState = 'authenticated'`; everything else in the
method is DOM display toggling. -/
def showProtectedContent (m : AuthMgr) : AuthMgr :=
  { m with authState := AuthState.authenticated }

/-- State effect of `ProkodeAuthManager.validateSession` (auth.js lines
224-233) given the outcome `tokenValid` of
`authClient.token.getUserInfo()`: on success nothing changes, on failure
`showLoginForm` runs.  The same try/validate/downgrade shape is used by
the 5-minute interval callback (auth.js lines 872-885). -/
def validateSession (tokenValid : Bool) (m : AuthMgr) : AuthMgr :=
  if tokenValid then m else showLoginForm m

/-- State effect of the body of `ProkodeAuthManager.handleLogout` after the
confirmation guard (auth.js lines 648-670): `currentUser = null`,
`authState = 'unauthenticated'`, `retryCount = 0`,
`tokenManager.clear()`, then `showLoginForm`. -/
def logoutBody (_ : AuthMgr) : AuthMgr :=
  showLoginForm
    { currentUser := none
      authState := AuthState.unauthenticated
      retryCount := 0
      tokensStored := false }

/-- Embedding of `ProkodeAuthManager.handleLogout` (auth.js lines 639-681):
when the identity carries the IAM-Admins group a `confirm` dialog runs and
a declined confirmation returns without any change; otherwise the logout
body runs (the `signOut` success path). -/
def handleLogout (confirmOk : Bool) (m : AuthMgr) : AuthMgr :=
  if hasRole m.currentUser "IAM-Admins" && !confirmOk then m else logoutBody m

/-- Effect on the count of pending inactivity timeouts of `updateActivity`
(auth.js lines 891-907): `clearTimeout` on the stored handle (cancelling
the one pending timeout, when there is one) followed by a fresh
`setTimeout`. -/
def updateActivity (pending : Nat) : Nat :=
  (pending - 1) + 1

/-- Whole-page state: the manager instance plus the module-scope timers of
auth.js — the number of live 5-minute validation intervals (one is created
at script load, line 872, and never cleared) and the number of pending
30-minute inactivity timeouts managed by `updateActivity`. -/
structure World where
  mgr : AuthMgr
  validationIntervals : Nat
  activityTimeouts : Nat
deriving DecidableEq

/-- External events driving the auth gate and session monitor:
the initial token check resolving a user or not, the widget success
callback, the three session-monitor triggers (each carrying the outcome
of its `getUserInfo` re-validation), a qualifying user-input event, and
the logout button (carrying the outcome of the admin `confirm` dialog). -/
inductive Event where
  | checkSuccess (u : Claims)
  | checkNoUser
  | loginSuccess (u : Claims)
  | intervalFire (tokenValid : Bool)
  | visibilityVisible (tokenValid : Bool)
  | inactivityFire (tokenValid : Bool)
  | activity
  | logout (confirmOk : Bool)
deriving DecidableEq

/-- One step of the event-driven system, read off auth.js:
the interval callback (lines 872-885) and both visibility-change handlers
(lines 213-219 and 915-921) are guarded by `isAuthenticated()`; the
page-level visibility handler additionally calls `updateActivity()`;
the inactivity timeout (lines 900-906) consumes its timer and, when
authenticated, re-validates; `handleAuthenticationSuccess` (lines 369-400)
stores tokens, sets the user, resets `retryCount` and shows the protected
content. -/
def step (w : World) (e : Event) : World :=
  match e with
  | Event.checkSuccess u =>
      { w with mgr := showProtectedContent { w.mgr with currentUser := some u } }
  | Event.checkNoUser =>
      { w with mgr := showLoginForm w.mgr }
  | Event.loginSuccess u =>
      { w with mgr := (showProtectedContent
          { w.mgr with currentUser := some u, retryCount := 0, tokensStored := true }) }
  | Event.intervalFire v =>
      if isAuthenticated w.mgr then { w with mgr := validateSession v w.mgr } else w
  | Event.visibilityVisible v =>
      if isAuthenticated w.mgr then
        { w with mgr := validateSession v w.mgr
                 activityTimeouts := updateActivity w.activityTimeouts }
      else w
  | Event.inactivityFire v =>
      if isAuthenticated w.mgr then
        { w with mgr := validateSession v w.mgr
                 activityTimeouts := w.activityTimeouts - 1 }
      else { w with activityTimeouts := w.activityTimeouts - 1 }
  | Event.activity =>
      { w with activityTimeouts := updateActivity w.activityTimeouts }
  | Event.logout c =>
      { w with mgr := handleLogout c w.mgr }

/-- The page as loaded: the manager starts in `loading` with no user
(constructor, auth.js lines 101-103), the validation interval is created
at script evaluation (line 872), no inactivity timeout is pending yet. -/
def initWorld : World :=
  { mgr := { currentUser := none
             authState := AuthState.loading
             retryCount := 0
             tokensStored := false }
    validationIntervals := 1
    activityTimeouts := 0 }

/-- The state reached from page load by a sequence of events. -/
def reach (es : List Event) : World :=
  es.foldl step initWorld

/-- Total number of live session timers. -/
def timerCount (w : World) : Nat :=
  w.validationIntervals + w.activityTimeouts

/-- The three session-monitor triggers of the specification. -/
def isTrigger : Event → Bool
  | Event.intervalFire _ => true
  | Event.visibilityVisible _ => true
  | Event.inactivityFire _ => true
  | _ => false

/-- A session-monitor trigger whose re-validation reports an invalid token. -/
def isInvalidTrigger : Event → Bool
  | Event.intervalFire v => !v
  | Event.visibilityVisible v => !v
  | Event.inactivityFire v => !v
  | _ => false

/-- One logout/login cycle: the logout button (confirmed), then the user
interaction with the re-rendered widget (a click, which the document-level
activity listeners of auth.js line 910 observe), then the widget success
callback. -/
def logoutLoginCycle (u : Claims) : List Event :=
  [Event.logout true, Event.activity, Event.loginSuccess u]

/-- N consecutive logout/login cycles. -/
def cyclesList (u : Claims) : Nat → List Event
  | 0 => []
  | n + 1 => cyclesList u n ++ logoutLoginCycle u

/-- Outcome of one attempt of the `checkAuthState` body (auth.js lines
238-269): the `getUserInfo` promise resolves a user, or it rejects (which
the inline `.catch(() => null)` converts to `null`), or some other
exception is thrown inside the `try` block and reaches the retry logic. -/
inductive AttemptOutcome where
  | okUser (u : Claims)
  | noUser
  | stepError
deriving DecidableEq

/-- Result of a `checkAuthState` run: the final auth state, the final
`currentUser`, and the list of delays (ms) passed to `setTimeout` when a
retry was scheduled. -/
structure CheckResult where
  finalState : AuthState
  finalUser : Option Claims
  delays : List Nat
deriving DecidableEq

/-- Recursion of `checkAuthState` (auth.js lines 238-269).  `out i` is the
outcome of attempt `i`, `u0` the `currentUser` on entry, `rc` the current
`retryCount` and `fuel = maxRetries - rc` (so `rc < maxRetries` exactly
when `fuel > 0`).  A resolved user leads to `showProtectedContent` with
the user stored; a null user leads to `showLoginForm`; a thrown error
increments the counter and reschedules after `1000 * retryCount` ms while
attempts remain, else falls back to `showLoginForm`. -/
def runCheckAux (out : Nat → AttemptOutcome) (u0 : Option Claims) :
    Nat → Nat → Nat → CheckResult
  | 0, _, attempt =>
      match out attempt with
      | AttemptOutcome.okUser u =>
          { finalState := AuthState.authenticated, finalUser := some u, delays := [] }
      | _ =>
          { finalState := AuthState.unauthenticated, finalUser := u0, delays := [] }
  | fuel + 1, rc, attempt =>
      match out attempt with
      | AttemptOutcome.okUser u =>
          { finalState := AuthState.authenticated, finalUser := some u, delays := [] }
      | AttemptOutcome.noUser =>
          { finalState := AuthState.unauthenticated, finalUser := u0, delays := [] }
      | AttemptOutcome.stepError =>
          let r := runCheckAux out u0 fuel (rc + 1) (attempt + 1)
          { finalState := r.finalState, finalUser := r.finalUser
            delays := 1000 * (rc + 1) :: r.delays }

/-- A full `checkAuthState` run from `initialize()`: `retryCount` starts at
0 and `maxRetries` is 3 (auth.js lines 103-104). -/
def checkAuthState (out : Nat → AttemptOutcome) (u0 : Option Claims) : CheckResult :=
  runCheckAux out u0 3 0 0

/-- Outcome of `new OktaSignIn(config)` inside `initializeOktaWidget`
(auth.js lines 148-155). -/
inductive CtorOutcome where
  | ok
  | throws
deriving DecidableEq

/-- Which page surface ends up displayed. -/
inductive UI where
  | loadingSurface
  | loginOverlay
  | protectedSurface
  | fallbackPage
deriving DecidableEq

/-- Result of an `init()` run. -/
structure InitResult where
  authState : AuthState
  currentUser : Option Claims
  ui : UI
  widgetRenderOk : Bool
deriving DecidableEq

/-- Environment of an `init()` run: whether the widget constructor throws,
and the outcomes of the `checkAuthState` attempts. -/
structure InitEnv where
  widgetCtor : CtorOutcome
  out : Nat → AttemptOutcome

/-- Embedding of `ProkodeAuthManager.init` (auth.js lines 119-143).
A throw from the widget constructor is raised inside the `try` block, so
the `catch` runs `handleAuthError` and `showLoginForm`: the state becomes
`unauthenticated`, the login overlay is displayed — and the widget render
inside `renderOktaWidget` then fails because `this.oktaSignIn` is still
null (`this.oktaSignIn.remove()` throws).  When the constructor succeeds,
`checkAuthState` decides between the protected surface and the login
overlay. -/
def initRun (env : InitEnv) : InitResult :=
  match env.widgetCtor with
  | CtorOutcome.throws =>
      { authState := AuthState.unauthenticated, currentUser := none
        ui := UI.loginOverlay, widgetRenderOk := false }
  | CtorOutcome.ok =>
      let r := checkAuthState env.out none
      { authState := r.finalState, currentUser := r.finalUser
        ui := if r.finalState = AuthState.authenticated then UI.protectedSurface
              else UI.loginOverlay
        widgetRenderOk := true }

/-- Outcome of `new ProkodeAuthManager()` as a synchronous expression: the
constructor body itself (element caching, method binding) either returns
or throws; the async `init()` call inside it never raises synchronously. -/
inductive MgrCtorOutcome where
  | ok
  | throwsSync
deriving DecidableEq

/-- Embedding of the enhanced variant's `DOMContentLoaded` handler
(part_000 lines 1286-1306): the static fallback error page is appended
exactly when `new ProkodeAuthManager()` itself throws synchronously. -/
def fallbackErrorPageShown : MgrCtorOutcome → Bool
  | MgrCtorOutcome.ok => false
  | MgrCtorOutcome.throwsSync => true

/-- The feature-module classes instantiated by `initializeEnhancedFeatures`
(app.js lines 99-110). -/
def featureClasses : List String :=
  ["MobileNavigation", "SmoothScroll", "NavbarScroll", "AnimationObserver",
   "ProgressBarAnimation", "ActiveNavLink", "LazyImageLoader",
   "EnhancedKeyboardNavigation", "ThemeManager", "PerformanceOptimizer"]

/-- Module-scope state of app.js: the `appInitialized` flag, the multiset
of feature modules wired into the DOM so far, and the body `loaded`
class. -/
structure AppState where
  appInitialized : Bool
  wiredFeatures : List String
  bodyLoaded : Bool
deriving DecidableEq

/-- Embedding of `initializeApp` (app.js lines 44-89): an immediate return
when `appInitialized` is already set; otherwise the feature classes are
instantiated (each wiring its DOM insertions and listeners once), the
body class is added and the flag is set at the end of the successful
run. -/
def initializeApp (_ : Option Claims) (s : AppState) : AppState :=
  if s.appInitialized then s
  else
    { appInitialized := true
      wiredFeatures := s.wiredFeatures ++ featureClasses
      bodyLoaded := true }

/-- The DOM locations the Role Projector writes to: the admin badge and
team badge inside the auth status bar, and the role indicator in the nav
logo.  Each field counts the elements present. -/
structure PageDom where
  adminBadges : Nat
  teamBadges : Nat
  navRoleIndicators : Nat
deriving DecidableEq

/-- Embedding of `ProkodeAuthManager.enableAdminFeatures` (auth.js lines
554-584): append an admin badge only when
`!authStatus.querySelector('.admin-badge')`. -/
def enableAdminFeatures (d : PageDom) : PageDom :=
  if d.adminBadges = 0 then { d with adminBadges := d.adminBadges + 1 } else d

/-- Embedding of `ProkodeAuthManager.enableTeamFeatures` (auth.js lines
589-610): append a team badge only when no `.team-badge` exists. -/
def enableTeamFeatures (d : PageDom) : PageDom :=
  if d.teamBadges = 0 then { d with teamBadges := d.teamBadges + 1 } else d

/-- Embedding of `ProkodeAuthManager.addRoleIndicators` (auth.js lines
615-634): append a role indicator to the nav logo only when none exists. -/
def addRoleIndicators (d : PageDom) : PageDom :=
  if d.navRoleIndicators = 0 then { d with navRoleIndicators := d.navRoleIndicators + 1 } else d

/-- Embedding of `ProkodeAuthManager.initializeRoleBasedFeatures` (auth.js
lines 530-549): return early when there is no user or no groups claim,
then gate the admin and team features on `hasRole` and add the role
indicators. -/
def initializeRoleBasedFeatures (currentUser : Option Claims) (d : PageDom) : PageDom :=
  match currentUser with
  | none => d
  | some u =>
    match u.groups with
    | none => d
    | some _ =>
      let d1 := if hasRole currentUser "IAM-Admins" then enableAdminFeatures d else d
      let d2 := if hasRole currentUser "IAM-Team" || hasRole currentUser "Security-Team" then
                  enableTeamFeatures d1
                else d1
      addRoleIndicators d2

/-- Iterate a function n times. -/
def applyN (f : α → α) : Nat → α → α
  | 0, a => a
  | n + 1, a => f (applyN f n a)

/-- A sample non-admin identity used in concrete counterexamples. -/
def sampleUser : Claims :=
  { name := some "Jordan Doe"
    preferredUsername := some "jdoe"
    email := some "jdoe\x40prokodelabs.com"
    groups := some ["Engineering-Team"] }

/-- A sample admin identity with exactly the IAM-Admins group. -/
def sampleAdmin : Claims :=
  { name := some "Avery Admin"
    preferredUsername := some "aadmin"
    email := some "aadmin\x40prokodelabs.com"
    groups := some ["IAM-Admins"] }

/-! Theorems.  Each claim of the specification is settled by one theorem
below; helper lemmas carry the inductive arguments. -/

/-- Every group in the priority order has its display label in the mapping. -/
theorem lookup_claimedLabel (r : String) (hr : r ∈ priorityOrder) :
    roleMapping.lookup r = some (claimedLabel r) := by
  fin_cases hr <;> rfl

/-- Permuting the group list does not change membership tests. -/
theorem contains_eq_of_perm (l1 l2 : List String) (h : l1.Perm l2) (a : String) :
    l1.contains a = l2.contains a := by
  have hm := h.mem_iff (a := a)
  cases h1 : l1.contains a <;> cases h2 : l2.contains a <;> simp_all

/-- Claim C10: getUserRole is a pure function of the group list — it
returns the display label of the first group present in the fixed
priority order, independently of the order of the input list, returns
the default label Team Member when no known group is present, and never
returns null or undefined. -/
theorem C10_getUserRole_pure (groups groups2 : List String) (hperm : groups.Perm groups2) :
    getUserRole groups = getUserRole groups2
  ∧ (getUserRole groups).isSome = true
  ∧ getUserRole groups
      = some (claimedLabel ((priorityOrder.find? (fun r => groups.contains r)).getD "")) := by
  have hfun : (fun r => groups.contains r) = (fun r => groups2.contains r) := by
    funext r
    exact contains_eq_of_perm groups groups2 hperm r
  have hmain : getUserRole groups
      = some (claimedLabel ((priorityOrder.find? (fun r => groups.contains r)).getD "")) := by
    cases hf : priorityOrder.find? (fun r => groups.contains r) with
    | none => unfold getUserRole; rw [hf]; rfl
    | some r =>
        have hr : r ∈ priorityOrder := List.mem_of_find?_eq_some hf
        unfold getUserRole; rw [hf]; simp [lookup_claimedLabel r hr]
  refine ⟨?_, ?_, hmain⟩
  · rw [getUserRole, getUserRole, hfun]
  · rw [hmain]; rfl

/-- Witness for C10 at a concrete permuted pair of group lists. -/
theorem C10_witness :
    getUserRole ["Security-Team", "IAM-Admins"] = getUserRole ["IAM-Admins", "Security-Team"]
  ∧ (getUserRole ["Security-Team", "IAM-Admins"]).isSome = true
  ∧ getUserRole ["Security-Team", "IAM-Admins"]
      = some (claimedLabel ((priorityOrder.find?
          (fun r => (["Security-Team", "IAM-Admins"] : List String).contains r)).getD "")) :=
  C10_getUserRole_pure ["Security-Team", "IAM-Admins"] ["IAM-Admins", "Security-Team"]
    (List.Perm.swap "IAM-Admins" "Security-Team" [])

/-- Claim C5: hasGroup (hasRole) returns false for every group-name
argument, including the empty string, whenever the Identity is absent
(currentUser null) or carries no groups claim; when the Identity carries
a groups list it returns true exactly when the list contains the
argument. -/
theorem C5_hasGroup (roleName : String) (v u : Claims) (gs : List String)
    (hv : v.groups = none) (hu : u.groups = some gs) :
    hasRole none roleName = false
  ∧ hasRole (some v) roleName = false
  ∧ (hasRole (some u) roleName = true ↔ roleName ∈ gs) := by
  refine ⟨rfl, ?_, ?_⟩
  · simp [hasRole, hv]
  · simp [hasRole, hu]

/-- Witness for C5 at the empty-string group name. -/
theorem C5_witness :
    hasRole none "" = false
  ∧ hasRole (some { name := none, preferredUsername := none, email := none, groups := none }) ""
      = false
  ∧ (hasRole (some sampleAdmin) "" = true ↔ "" ∈ ["IAM-Admins"]) :=
  C5_hasGroup "" { name := none, preferredUsername := none, email := none, groups := none }
    sampleAdmin ["IAM-Admins"] rfl rfl

/-- The feature-class list of app.js contains no duplicate names. -/
theorem featureClasses_nodup : featureClasses.Nodup := by decide

/-- Claim C8: a second invocation of initializeApp is a no-op thanks to
the appInitialized guard — for any feature module, being called twice
wires exactly one copy, never a duplicate. -/
theorem C8_initializeApp_guard (u1 u2 : Option Claims) (s : AppState) (f : String)
    (hf : f ∈ featureClasses) (hs : s.appInitialized = false) (hw : s.wiredFeatures = []) :
    initializeApp u2 (initializeApp u1 s) = initializeApp u1 s
  ∧ (initializeApp u1 s).wiredFeatures.count f = 1
  ∧ (initializeApp u2 (initializeApp u1 s)).wiredFeatures.count f = 1 := by
  have h1 : initializeApp u1 s
      = { appInitialized := true
          wiredFeatures := s.wiredFeatures ++ featureClasses
          bodyLoaded := true } := by
    simp [initializeApp, hs]
  have hcount : featureClasses.count f = 1 :=
    List.count_eq_one_of_mem featureClasses_nodup hf
  have h2 : initializeApp u2 (initializeApp u1 s) = initializeApp u1 s := by
    rw [h1]; simp [initializeApp]
  refine ⟨h2, ?_, ?_⟩
  · rw [h1]; simp [hw, hcount]
  · rw [h2, h1]; simp [hw, hcount]

/-- Witness for C8 on the fresh page state. -/
theorem C8_witness :
    initializeApp none (initializeApp none
        { appInitialized := false, wiredFeatures := [], bodyLoaded := false })
      = initializeApp none { appInitialized := false, wiredFeatures := [], bodyLoaded := false }
  ∧ (initializeApp none
        { appInitialized := false, wiredFeatures := [], bodyLoaded := false }).wiredFeatures.count
        "MobileNavigation" = 1
  ∧ (initializeApp none (initializeApp none
        { appInitialized := false, wiredFeatures := [], bodyLoaded := false })).wiredFeatures.count
        "MobileNavigation" = 1 :=
  C8_initializeApp_guard none none
    { appInitialized := false, wiredFeatures := [], bodyLoaded := false }
    "MobileNavigation" (by decide) rfl rfl

/-- For an identity whose only group is IAM-Admins, the role-projection
routine changes the admin-badge count to one when absent and leaves it
alone otherwise. -/
theorem roleFeatures_adminBadges (u : Claims) (d : PageDom)
    (hg : u.groups = some ["IAM-Admins"]) :
    (initializeRoleBasedFeatures (some u) d).adminBadges
      = if d.adminBadges = 0 then 1 else d.adminBadges := by
  by_cases h : d.adminBadges = 0 <;>
    simp [initializeRoleBasedFeatures, hg, hasRole, enableAdminFeatures,
      enableTeamFeatures, addRoleIndicators, h] <;>
    split <;> rfl

/-- Claim C9: with groups IAM-Admins the Role Projector appends exactly
one admin badge, and repeated invocations never duplicate it. -/
theorem C9_admin_badge_once (d : PageDom) (n : Nat) (u : Claims)
    (hg : u.groups = some ["IAM-Admins"]) (hd : d.adminBadges = 0) :
    (initializeRoleBasedFeatures (some u) d).adminBadges = 1
  ∧ (applyN (initializeRoleBasedFeatures (some u)) (n + 1) d).adminBadges = 1 := by
  have hone : (initializeRoleBasedFeatures (some u) d).adminBadges = 1 := by
    rw [roleFeatures_adminBadges u d hg, if_pos hd]
  refine ⟨hone, ?_⟩
  induction n with
  | zero => simpa [applyN] using hone
  | succ m ih =>
      have : applyN (initializeRoleBasedFeatures (some u)) (m + 2) d
          = initializeRoleBasedFeatures (some u)
              (applyN (initializeRoleBasedFeatures (some u)) (m + 1) d) := rfl
      rw [this, roleFeatures_adminBadges u _ hg, ih]
      simp

/-- Witness for C9 with the sample admin identity. -/
theorem C9_witness :
    (initializeRoleBasedFeatures (some sampleAdmin)
        { adminBadges := 0, teamBadges := 0, navRoleIndicators := 0 }).adminBadges = 1
  ∧ (applyN (initializeRoleBasedFeatures (some sampleAdmin)) 3
        { adminBadges := 0, teamBadges := 0, navRoleIndicators := 0 }).adminBadges = 1 :=
  C9_admin_badge_once { adminBadges := 0, teamBadges := 0, navRoleIndicators := 0 } 2
    sampleAdmin rfl rfl

/-- The retry delays scheduled by a checkAuthState run form a linearly
increasing sequence starting from the entry retry counter, with at most
fuel entries. -/
theorem runCheckAux_delays (out : Nat → AttemptOutcome) (u0 : Option Claims) :
    ∀ fuel rc attempt, ∃ n, n ≤ fuel ∧
      (runCheckAux out u0 fuel rc attempt).delays
        = (List.range n).map (fun k => 1000 * (rc + 1 + k)) := by
  intro fuel
  induction fuel with
  | zero =>
      intro rc attempt
      refine ⟨0, Nat.le_refl 0, ?_⟩
      cases h : out attempt <;> simp [runCheckAux, h]
  | succ f ih =>
      intro rc attempt
      cases h : out attempt with
      | okUser u => exact ⟨0, Nat.zero_le _, by simp [runCheckAux, h]⟩
      | noUser => exact ⟨0, Nat.zero_le _, by simp [runCheckAux, h]⟩
      | stepError =>
          obtain ⟨n, hn, hdel⟩ := ih (rc + 1) (attempt + 1)
          refine ⟨n + 1, Nat.succ_le_succ hn, ?_⟩
          simp only [runCheckAux, h]
          rw [hdel, List.range_succ_eq_map, List.map_cons, List.map_map]
          refine congrArg₂ List.cons (by ring) ?_
          apply List.map_congr_left
          intro a _
          simp [Function.comp]
          ring

/-- Claim C6: checkAuthState, as invoked from initialize with retryCount
starting at zero and maxRetries three, resolves an existing token into
the Authenticated state carrying the resolved Identity, retries thrown
errors at most three times with a linearly increasing delay of
1000 ms times the attempt number, and on exhaustion of the retries lands
in the Unauthenticated state. -/
theorem C6_checkAuthState_retry (outS outE outA : Nat → AttemptOutcome)
    (u0 u1 u2 : Option Claims) (u : Claims)
    (hS : outS 0 = AttemptOutcome.okUser u)
    (hE : ∀ i, outE i = AttemptOutcome.stepError) :
    (checkAuthState outS u0).finalState = AuthState.authenticated
  ∧ (checkAuthState outS u0).finalUser = some u
  ∧ (checkAuthState outE u1).finalState = AuthState.unauthenticated
  ∧ (checkAuthState outE u1).finalUser = u1
  ∧ (checkAuthState outE u1).delays = [1000, 2000, 3000]
  ∧ (checkAuthState outA u2).delays.length ≤ 3
  ∧ (checkAuthState outA u2).delays
      = (List.range (checkAuthState outA u2).delays.length).map (fun k => 1000 * (k + 1)) := by
  obtain ⟨n, hn, hdel⟩ := runCheckAux_delays outA u2 3 0 0
  have hlen : (checkAuthState outA u2).delays.length = n := by
    rw [checkAuthState, hdel]; simp
  refine ⟨?_, ?_, ?_, ?_, ?_, ?_, ?_⟩
  · simp [checkAuthState, runCheckAux, hS]
  · simp [checkAuthState, runCheckAux, hS]
  · simp [checkAuthState, runCheckAux, hE]
  · simp [checkAuthState, runCheckAux, hE]
  · simp [checkAuthState, runCheckAux, hE]
  · rw [hlen]; exact hn
  · rw [hlen, checkAuthState, hdel]
    apply List.map_congr_left
    intro a _
    ring

/-- Witness for C6 with concrete outcome streams. -/
theorem C6_witness :
    (checkAuthState (fun _ => AttemptOutcome.okUser sampleUser) none).finalState
        = AuthState.authenticated
  ∧ (checkAuthState (fun _ => AttemptOutcome.okUser sampleUser) none).finalUser = some sampleUser
  ∧ (checkAuthState (fun _ => AttemptOutcome.stepError) none).finalState
        = AuthState.unauthenticated
  ∧ (checkAuthState (fun _ => AttemptOutcome.stepError) none).finalUser = none
  ∧ (checkAuthState (fun _ => AttemptOutcome.stepError) none).delays = [1000, 2000, 3000]
  ∧ (checkAuthState (fun i => if i = 0 then AttemptOutcome.stepError else AttemptOutcome.noUser)
        none).delays.length ≤ 3
  ∧ (checkAuthState (fun i => if i = 0 then AttemptOutcome.stepError else AttemptOutcome.noUser)
        none).delays
      = (List.range (checkAuthState
          (fun i => if i = 0 then AttemptOutcome.stepError else AttemptOutcome.noUser)
          none).delays.length).map (fun k => 1000 * (k + 1)) :=
  C6_checkAuthState_retry (fun _ => AttemptOutcome.okUser sampleUser)
    (fun _ => AttemptOutcome.stepError)
    (fun i => if i = 0 then AttemptOutcome.stepError else AttemptOutcome.noUser)
    none none none sampleUser rfl (fun _ => rfl)

/-- Counterexample to claim C3 as stated: when the widget constructor
throws during initialize, the code does not show the static fallback
error page — the catch block of init degrades to the login overlay like
every other failure. -/
theorem C3_counterexample :
    (initRun { widgetCtor := CtorOutcome.throws
               out := fun _ => AttemptOutcome.noUser }).ui = UI.loginOverlay
  ∧ ¬ (initRun { widgetCtor := CtorOutcome.throws
                 out := fun _ => AttemptOutcome.noUser }).ui = UI.fallbackPage := by
  exact ⟨rfl, by simp [initRun]⟩

/-- Claim C3 (amended): every failure during initialize — a widget
constructor throw included — degrades to the Unauthenticated state with
the login overlay shown, never the fallback page (after a constructor
throw the widget render inside the overlay fails, since the widget
object is null); the static fallback error page of the enhanced
variant's DOMContentLoaded handler appears exactly when constructing the
auth manager itself throws synchronously. -/
theorem C3_amended_init_degrades (env : InitEnv) (c : MgrCtorOutcome)
    (hfail : env.widgetCtor = CtorOutcome.throws ∨
             (checkAuthState env.out none).finalState = AuthState.unauthenticated) :
    (initRun env).authState = AuthState.unauthenticated
  ∧ (initRun env).ui = UI.loginOverlay
  ∧ ¬ (initRun env).ui = UI.fallbackPage
  ∧ (initRun { widgetCtor := CtorOutcome.throws, out := env.out }).widgetRenderOk = false
  ∧ (fallbackErrorPageShown c = true ↔ c = MgrCtorOutcome.throwsSync) := by
  have hui : (initRun env).authState = AuthState.unauthenticated
      ∧ (initRun env).ui = UI.loginOverlay := by
    cases henv : env.widgetCtor with
    | throws => simp [initRun, henv]
    | ok =>
        rcases hfail with h | h
        · rw [henv] at h; cases h
        · simp [initRun, henv, h]
  refine ⟨hui.1, hui.2, ?_, rfl, by cases c <;> simp [fallbackErrorPageShown]⟩
  rw [hui.2]
  simp

/-- Witness for C3 at a concrete failing environment. -/
theorem C3_witness :
    (initRun { widgetCtor := CtorOutcome.throws
               out := fun _ => AttemptOutcome.stepError }).authState = AuthState.unauthenticated
  ∧ (initRun { widgetCtor := CtorOutcome.throws
               out := fun _ => AttemptOutcome.stepError }).ui = UI.loginOverlay
  ∧ ¬ (initRun { widgetCtor := CtorOutcome.throws
                 out := fun _ => AttemptOutcome.stepError }).ui = UI.fallbackPage
  ∧ (initRun { widgetCtor := CtorOutcome.throws
               out := fun _ => AttemptOutcome.stepError }).widgetRenderOk = false
  ∧ (fallbackErrorPageShown MgrCtorOutcome.throwsSync = true
        ↔ MgrCtorOutcome.throwsSync = MgrCtorOutcome.throwsSync) :=
  C3_amended_init_degrades
    { widgetCtor := CtorOutcome.throws, out := fun _ => AttemptOutcome.stepError }
    MgrCtorOutcome.throwsSync (Or.inl rfl)

/-- No event ever clears or recreates the module-scope validation
interval. -/
theorem step_keeps_intervals (w : World) (e : Event) :
    (step w e).validationIntervals = w.validationIntervals := by
  cases e <;> simp only [step] <;> (try split) <;> rfl

/-- The validation interval count is invariant under any event
sequence. -/
theorem foldl_keeps_intervals (es : List Event) : ∀ w : World,
    (es.foldl step w).validationIntervals = w.validationIntervals := by
  induction es with
  | nil => intro w; rfl
  | cons e es ih =>
      intro w
      rw [List.foldl_cons, ih, step_keeps_intervals]

/-- Exactly one validation interval is live in every reachable state. -/
theorem reach_intervals (es : List Event) : (reach es).validationIntervals = 1 := by
  rw [reach, foldl_keeps_intervals]; rfl

/-- Every event keeps the pending inactivity-timeout count at most one:
updateActivity cancels the stored timeout before arming a new one, and a
firing timeout consumes itself. -/
theorem step_activity_le (w : World) (e : Event) (h : w.activityTimeouts ≤ 1) :
    (step w e).activityTimeouts ≤ 1 := by
  cases e <;> simp only [step, updateActivity] <;> (try split) <;> (try simp) <;> omega

/-- The inactivity-timeout bound is preserved along any event sequence. -/
theorem foldl_activity_le (es : List Event) : ∀ w : World,
    w.activityTimeouts ≤ 1 → (es.foldl step w).activityTimeouts ≤ 1 := by
  induction es with
  | nil => intro w h; exact h
  | cons e es ih =>
      intro w h
      rw [List.foldl_cons]
      exact ih _ (step_activity_le w e h)

/-- At most one inactivity timeout is pending in every reachable state. -/
theorem reach_activity_le (es : List Event) : (reach es).activityTimeouts ≤ 1 :=
  foldl_activity_le es initWorld (by simp [initWorld])

/-- One step preserves the forward identity invariant: whenever the state
is authenticated the current user is non-null. -/
theorem step_identity (w : World) (e : Event)
    (h : ¬ w.mgr.authState = AuthState.authenticated ∨ ¬ w.mgr.currentUser = none) :
    ¬ (step w e).mgr.authState = AuthState.authenticated
  ∨ ¬ (step w e).mgr.currentUser = none := by
  cases e <;>
    simp only [step, validateSession, showLoginForm, showProtectedContent,
      handleLogout, logoutBody] <;>
    (repeat' split) <;> simp_all

/-- In every reachable state, Authenticated implies a non-null
identity. -/
theorem reach_identity (es : List Event) :
    ¬ (reach es).mgr.authState = AuthState.authenticated
  ∨ ¬ (reach es).mgr.currentUser = none := by
  rw [reach]
  have : ∀ w : World,
      (¬ w.mgr.authState = AuthState.authenticated ∨ ¬ w.mgr.currentUser = none) →
      (¬ (es.foldl step w).mgr.authState = AuthState.authenticated
        ∨ ¬ (es.foldl step w).mgr.currentUser = none) := by
    induction es with
    | nil => intro w h; exact h
    | cons e es ih =>
        intro w h
        rw [List.foldl_cons]
        exact ih _ (step_identity w e h)
  exact this initWorld (Or.inl (by simp [initWorld]))

/-- Claim C1 (amended): the claimed iff holds only in the forward
direction — every reachable Authenticated state carries a non-null
Identity — while a session-expiry downgrade out of Authenticated moves
the state to Unauthenticated but leaves the Identity and both timers
untouched (nothing is cleared before the re-render). -/
theorem C1_amended_identity_invariant (es : List Event) (w : World)
    (hw : isAuthenticated w.mgr = true) :
    (¬ (reach es).mgr.authState = AuthState.authenticated
      ∨ ¬ (reach es).mgr.currentUser = none)
  ∧ (step w (Event.intervalFire false)).mgr.authState = AuthState.unauthenticated
  ∧ (step w (Event.intervalFire false)).mgr.currentUser = w.mgr.currentUser
  ∧ (step w (Event.intervalFire false)).validationIntervals = w.validationIntervals
  ∧ (step w (Event.intervalFire false)).activityTimeouts = w.activityTimeouts := by
  refine ⟨reach_identity es, ?_, ?_, ?_, ?_⟩ <;>
    simp [step, hw, validateSession, showLoginForm]

/-- Witness for the amended C1 at a concrete authenticated world. -/
theorem C1_witness :
    (¬ (reach [Event.loginSuccess sampleUser]).mgr.authState = AuthState.authenticated
      ∨ ¬ (reach [Event.loginSuccess sampleUser]).mgr.currentUser = none)
  ∧ (step (reach [Event.loginSuccess sampleUser]) (Event.intervalFire false)).mgr.authState
        = AuthState.unauthenticated
  ∧ (step (reach [Event.loginSuccess sampleUser]) (Event.intervalFire false)).mgr.currentUser
        = (reach [Event.loginSuccess sampleUser]).mgr.currentUser
  ∧ (step (reach [Event.loginSuccess sampleUser])
        (Event.intervalFire false)).validationIntervals
        = (reach [Event.loginSuccess sampleUser]).validationIntervals
  ∧ (step (reach [Event.loginSuccess sampleUser]) (Event.intervalFire false)).activityTimeouts
        = (reach [Event.loginSuccess sampleUser]).activityTimeouts :=
  C1_amended_identity_invariant [Event.loginSuccess sampleUser]
    (reach [Event.loginSuccess sampleUser]) (by decide)

/-- Counterexample to claim C1 as stated: after a login followed by a
failed interval re-validation the reachable state has AuthState
Unauthenticated while the Identity is still non-null, and the validation
interval is still live — the biconditional and the clears-before-render
requirement both fail. -/
theorem C1_counterexample :
    (reach [Event.loginSuccess sampleUser, Event.intervalFire false]).mgr.authState
        = AuthState.unauthenticated
  ∧ ¬ (reach [Event.loginSuccess sampleUser, Event.intervalFire false]).mgr.currentUser = none
  ∧ (reach [Event.loginSuccess sampleUser, Event.intervalFire false]).validationIntervals
        = 1 := by
  decide

/-- A world whose manager is not authenticated is left with an unchanged
manager by every session-monitor trigger. -/
theorem trigger_mgr_of_not_auth (w : World) (e : Event)
    (ht : isTrigger e = true) (h : isAuthenticated w.mgr = false) :
    (step w e).mgr = w.mgr := by
  cases e <;> simp_all [step, isTrigger]

/-- A trigger-only event sequence never changes the manager of an
unauthenticated world. -/
theorem foldl_triggers_mgr_of_not_auth (ts : List Event) : ∀ w : World,
    (∀ e ∈ ts, isTrigger e = true) → isAuthenticated w.mgr = false →
    (ts.foldl step w).mgr = w.mgr := by
  induction ts with
  | nil => intro w _ _; rfl
  | cons e ts ih =>
      intro w ht h
      rw [List.foldl_cons]
      have hmgr := trigger_mgr_of_not_auth w e (ht e (by simp)) h
      rw [ih _ (fun x hx => ht x (by simp [hx])) (by rw [hmgr]; exact h), hmgr]

/-- On an authenticated world a trigger either downgrades (invalid token)
or leaves the manager unchanged (valid token). -/
theorem trigger_mgr_of_auth (w : World) (e : Event)
    (ht : isTrigger e = true) (h : isAuthenticated w.mgr = true) :
    (step w e).mgr = if isInvalidTrigger e = true then showLoginForm w.mgr else w.mgr := by
  cases e <;> simp_all [step, isTrigger, isInvalidTrigger, validateSession] <;>
    (repeat' split) <;> simp_all

/-- The downgraded manager is no longer authenticated. -/
theorem showLoginForm_not_auth (m : AuthMgr) :
    isAuthenticated (showLoginForm m) = false := by
  simp [isAuthenticated, showLoginForm]

/-- Any trigger-only sequence containing at least one invalid
re-validation downgrades an authenticated world to exactly
showLoginForm of its manager, independently of the order of the
triggers. -/
theorem triggers_downgrade : ∀ (ts : List Event) (w : World),
    (∀ e ∈ ts, isTrigger e = true) →
    (∃ e, e ∈ ts ∧ isInvalidTrigger e = true) →
    isAuthenticated w.mgr = true →
    (ts.foldl step w).mgr = showLoginForm w.mgr := by
  intro ts
  induction ts with
  | nil =>
      intro w _ hbad _
      rcases hbad with ⟨e, he, _⟩
      cases he
  | cons e ts ih =>
      intro w htrig hbad hauth
      have hte := htrig e (by simp)
      rw [List.foldl_cons]
      by_cases hb : isInvalidTrigger e = true
      · have h1 : (step w e).mgr = showLoginForm w.mgr := by
          rw [trigger_mgr_of_auth w e hte hauth, if_pos hb]
        have h2 : isAuthenticated (step w e).mgr = false := by
          rw [h1]; exact showLoginForm_not_auth _
        rw [foldl_triggers_mgr_of_not_auth ts _ (fun x hx => htrig x (by simp [hx])) h2, h1]
      · have h1 : (step w e).mgr = w.mgr := by
          rw [trigger_mgr_of_auth w e hte hauth, if_neg hb]
        rcases hbad with ⟨e2, he2, hbad2⟩
        have he2' : e2 ∈ ts := by
          rcases List.mem_cons.mp he2 with hEq | hMem
          · exact absurd (hEq ▸ hbad2) hb
          · exact hMem
        have hres := ih (step w e) (fun x hx => htrig x (by simp [hx]))
          ⟨e2, he2', hbad2⟩ (by rw [h1]; exact hauth)
        rw [hres, h1]

/-- Claim C2 (amended): from an authenticated state, any sequence of
session-monitor triggers in which at least one re-validation reports an
invalid token ends in the Unauthenticated state, and the final manager
state is the same whatever the trigger order — but the Identity is NOT
cleared: currentUser keeps its pre-downgrade non-null value. -/
theorem C2_amended_downgrade (w : World) (ts : List Event)
    (htrig : ∀ e ∈ ts, isTrigger e = true)
    (hbad : ∃ e, e ∈ ts ∧ isInvalidTrigger e = true)
    (hauth : isAuthenticated w.mgr = true) :
    (ts.foldl step w).mgr = showLoginForm w.mgr
  ∧ (ts.foldl step w).mgr.authState = AuthState.unauthenticated
  ∧ (ts.foldl step w).mgr.currentUser = w.mgr.currentUser
  ∧ ¬ (ts.foldl step w).mgr.currentUser = none := by
  have h := triggers_downgrade ts w htrig hbad hauth
  have huser : ¬ w.mgr.currentUser = none := by
    simp [isAuthenticated] at hauth
    exact hauth.2
  exact ⟨h, by rw [h]; rfl, by rw [h]; rfl, by rw [h]; exact huser⟩

/-- Witness for the amended C2 at a concrete two-trigger sequence. -/
theorem C2_witness :
    (([Event.intervalFire true, Event.visibilityVisible false] : List Event).foldl step
        (reach [Event.loginSuccess sampleUser])).mgr
      = showLoginForm (reach [Event.loginSuccess sampleUser]).mgr
  ∧ (([Event.intervalFire true, Event.visibilityVisible false] : List Event).foldl step
        (reach [Event.loginSuccess sampleUser])).mgr.authState = AuthState.unauthenticated
  ∧ (([Event.intervalFire true, Event.visibilityVisible false] : List Event).foldl step
        (reach [Event.loginSuccess sampleUser])).mgr.currentUser
      = (reach [Event.loginSuccess sampleUser]).mgr.currentUser
  ∧ ¬ (([Event.intervalFire true, Event.visibilityVisible false] : List Event).foldl step
        (reach [Event.loginSuccess sampleUser])).mgr.currentUser = none :=
  C2_amended_downgrade (reach [Event.loginSuccess sampleUser])
    [Event.intervalFire true, Event.visibilityVisible false]
    (by decide) ⟨Event.visibilityVisible false, by decide, rfl⟩ (by decide)

/-- Counterexample to claim C2 as stated: a single invalid-token trigger
out of the authenticated state leaves the system Unauthenticated but
with the Identity still set — currentUser is not null, contradicting
the claimed clearing. -/
theorem C2_counterexample :
    (reach [Event.loginSuccess sampleUser, Event.visibilityVisible false]).mgr.authState
        = AuthState.unauthenticated
  ∧ (reach [Event.loginSuccess sampleUser, Event.visibilityVisible false]).mgr.currentUser
        = some sampleUser := by
  decide

/-- Claim C4 (amended): the re-validation routine is idempotent at the
state level and touches nothing but the AuthState (possibly downgrading
it); the logout transition is idempotent as a state transformer; and
logout is a no-op only on an Unauthenticated state whose Identity,
retry counter and token store are already cleared — on an
Unauthenticated state with a stale Identity it clears the Identity, so
it is not a no-op there. -/
theorem C4_amended_idempotence (v c : Bool) (s t : AuthMgr)
    (ht1 : t.authState = AuthState.unauthenticated) (ht2 : t.currentUser = none)
    (ht3 : t.retryCount = 0) (ht4 : t.tokensStored = false) :
    validateSession v (validateSession v s) = validateSession v s
  ∧ (validateSession v s).currentUser = s.currentUser
  ∧ (validateSession v s).tokensStored = s.tokensStored
  ∧ (validateSession v s).retryCount = s.retryCount
  ∧ handleLogout c (handleLogout c s) = handleLogout c s
  ∧ handleLogout true t = t := by
  refine ⟨?_, ?_, ?_, ?_, ?_, ?_⟩
  · cases v <;> simp [validateSession, showLoginForm]
  · cases v <;> simp [validateSession, showLoginForm]
  · cases v <;> simp [validateSession, showLoginForm]
  · cases v <;> simp [validateSession, showLoginForm]
  · by_cases h : (hasRole s.currentUser "IAM-Admins" && !c) = true
    · simp [handleLogout, h]
    · simp only [handleLogout, h, if_neg, Bool.not_eq_true]
      simp [logoutBody, showLoginForm, hasRole, h]
  · cases t
    simp_all [handleLogout, logoutBody, showLoginForm, hasRole]

/-- Witness for the amended C4 at concrete manager states. -/
theorem C4_witness :
    validateSession false (validateSession false
        { currentUser := some sampleUser, authState := AuthState.authenticated,
          retryCount := 0, tokensStored := true })
      = validateSession false
        { currentUser := some sampleUser, authState := AuthState.authenticated,
          retryCount := 0, tokensStored := true }
  ∧ (validateSession false
        { currentUser := some sampleUser, authState := AuthState.authenticated,
          retryCount := 0, tokensStored := true }).currentUser
      = ({ currentUser := some sampleUser, authState := AuthState.authenticated,
           retryCount := 0, tokensStored := true } : AuthMgr).currentUser
  ∧ (validateSession false
        { currentUser := some sampleUser, authState := AuthState.authenticated,
          retryCount := 0, tokensStored := true }).tokensStored
      = ({ currentUser := some sampleUser, authState := AuthState.authenticated,
           retryCount := 0, tokensStored := true } : AuthMgr).tokensStored
  ∧ (validateSession false
        { currentUser := some sampleUser, authState := AuthState.authenticated,
          retryCount := 0, tokensStored := true }).retryCount
      = ({ currentUser := some sampleUser, authState := AuthState.authenticated,
           retryCount := 0, tokensStored := true } : AuthMgr).retryCount
  ∧ handleLogout false (handleLogout false
        { currentUser := some sampleUser, authState := AuthState.authenticated,
          retryCount := 0, tokensStored := true })
      = handleLogout false
        { currentUser := some sampleUser, authState := AuthState.authenticated,
          retryCount := 0, tokensStored := true }
  ∧ handleLogout true
        { currentUser := none, authState := AuthState.unauthenticated,
          retryCount := 0, tokensStored := false }
      = { currentUser := none, authState := AuthState.unauthenticated,
          retryCount := 0, tokensStored := false } :=
  C4_amended_idempotence false false
    { currentUser := some sampleUser, authState := AuthState.authenticated,
      retryCount := 0, tokensStored := true }
    { currentUser := none, authState := AuthState.unauthenticated,
      retryCount := 0, tokensStored := false }
    rfl rfl rfl rfl

/-- Counterexample to claim C4 as stated: in the reachable state produced
by a login followed by a failed inactivity re-validation the AuthState is
already Unauthenticated, yet invoking logout there changes the state — it
clears the stale Identity — so logout on an Unauthenticated state is not
a no-op. -/
theorem C4_counterexample :
    (reach [Event.loginSuccess sampleUser, Event.inactivityFire false]).mgr.authState
        = AuthState.unauthenticated
  ∧ ¬ handleLogout true (reach [Event.loginSuccess sampleUser,
        Event.inactivityFire false]).mgr
      = (reach [Event.loginSuccess sampleUser, Event.inactivityFire false]).mgr := by
  decide

/-- Effect of one logout/login cycle on the timers and the manager: the
interval is untouched, the click that drives the re-login re-arms the
inactivity timeout, and the success callback authenticates the
manager. -/
theorem cycle_effect (w : World) (u : Claims) (hact : w.activityTimeouts ≤ 1) :
    ((logoutLoginCycle u).foldl step w).activityTimeouts = 1
  ∧ ((logoutLoginCycle u).foldl step w).validationIntervals = w.validationIntervals
  ∧ isAuthenticated ((logoutLoginCycle u).foldl step w).mgr = true := by
  refine ⟨?_, ?_, ?_⟩
  · simp [logoutLoginCycle, step, updateActivity]
    omega
  · simp [logoutLoginCycle, step_keeps_intervals,
      foldl_keeps_intervals]
  · simp [logoutLoginCycle, step, isAuthenticated, showProtectedContent]

/-- Claim C7: in every reachable state the live session-timer count is
bounded by two, and after any positive number of logout/login cycles
both session timers are live again — one validation interval and one
pending inactivity timeout, total exactly two — with the manager
re-authenticated. -/
theorem C7_timer_bound (es : List Event) (u : Claims) (n : Nat) (hn : 0 < n) :
    timerCount (reach es) ≤ 2
  ∧ (reach (es ++ cyclesList u n)).validationIntervals = 1
  ∧ (reach (es ++ cyclesList u n)).activityTimeouts = 1
  ∧ timerCount (reach (es ++ cyclesList u n)) = 2
  ∧ isAuthenticated (reach (es ++ cyclesList u n)).mgr = true := by
  have h1 : timerCount (reach es) ≤ 2 := by
    have ha := reach_activity_le es
    have hi := reach_intervals es
    rw [timerCount, hi]
    omega
  obtain ⟨m, rfl⟩ : ∃ m, n = m + 1 := ⟨n - 1, by omega⟩
  have hsplit : reach (es ++ cyclesList u (m + 1))
      = (logoutLoginCycle u).foldl step (reach (es ++ cyclesList u m)) := by
    rw [reach, reach, cyclesList, ← List.append_assoc, List.foldl_append]
  have hprev : (reach (es ++ cyclesList u m)).activityTimeouts ≤ 1 := reach_activity_le _
  obtain ⟨ha, hi, hauth⟩ := cycle_effect (reach (es ++ cyclesList u m)) u hprev
  have hint : (reach (es ++ cyclesList u (m + 1))).validationIntervals = 1 := reach_intervals _
  refine ⟨h1, hint, ?_, ?_, ?_⟩
  · rw [hsplit]; exact ha
  · rw [timerCount, hint, hsplit, ha]
  · rw [hsplit]; exact hauth

/-- Witness for C7 with one concrete logout/login cycle. -/
theorem C7_witness :
    timerCount (reach []) ≤ 2
  ∧ (reach ([] ++ cyclesList sampleUser 1)).validationIntervals = 1
  ∧ (reach ([] ++ cyclesList sampleUser 1)).activityTimeouts = 1
  ∧ timerCount (reach ([] ++ cyclesList sampleUser 1)) = 2
  ∧ isAuthenticated (reach ([] ++ cyclesList sampleUser 1)).mgr = true :=
  C7_timer_bound [] sampleUser 1 (by decide)

end IAM
